import Mathlib

/-!
Shallow embedding of the vector-search retrieval subsystem of the
LlegoBackend repository, and proofs about its specified behaviour.

The embedding covers:
* `core/config.py`             — the `Settings` defaults relevant to embeddings;
* `services/embeddings/gemini_service.py` — task-type resolution of
  `GeminiEmbeddingService.generate_embedding`;
* `services/vector_search_service.py`     — `VectorSearchService.search_products`
  and `search_branches`;
* `schema/products/queries.py` and `schema/branches/queries.py` — the
  rank-preserving hydration loop of the search resolvers;
* `clients/qdrant_client.py`   — `create_collection`;
* `api/routes.py`              — `vectorize_all_products` and
  `vectorize_all_branches` (the bulk vectorization job and its report).

External collaborators (the Gemini embedding API, the Qdrant index backend,
MongoDB) are modelled as oracle functions passed to the embedded operations;
external network calls are recorded in an `Action` trace.
-/

namespace Llego

/-- A Python exception as observed by a caller: the exception class name and
its message.  The repository's service layer has no exception classes of its
own; exceptions from the Gemini / Qdrant client libraries flow through. -/
structure PyExc where
  ty : String
  msg : String
deriving DecidableEq, Repr

/-- Embedding vectors.  Their numeric content is never inspected by the code
under study, only passed along, so the carrier of the entries is irrelevant;
we use `Rat`. -/
abbrev Embedding := List Rat

/-- The fields of `Settings` (core/config.py) that the embedding paths read,
with the default values from the source. -/
structure Settings where
  gemini_model : String := "gemini-embedding-001"
  embedding_dimension : Nat := 768
  embedding_task_type : String := "RETRIEVAL_DOCUMENT"
  query_task_type : String := "RETRIEVAL_QUERY"
deriving Repr

/-- The process-wide settings instance with config.py's default values. -/
def settings : Settings := {}

/-- Task-type resolution in `GeminiEmbeddingService.generate_embedding`:
`if not task_type: task_type = settings.embedding_task_type`.
A Python string is falsy exactly when it is empty; `None` is falsy. -/
def resolveTaskType (taskType : Option String) : String :=
  match taskType with
  | none => settings.embedding_task_type
  | some t => if t.isEmpty then settings.embedding_task_type else t

/-- Embeds the Python blank-check `not s or not s.strip()`:
true iff the string is empty or consists only of whitespace. -/
def isBlank (s : String) : Bool :=
  s.data.all Char.isWhitespace

/-- A scored point returned by Qdrant's `search`: its similarity score and the
`"id"` entry of its payload (the Mongo record id stored at vectorization
time). -/
structure ScoredPoint where
  score : Rat
  payloadId : String
deriving DecidableEq, Repr

/-- The `search_params` dictionary built by `VectorSearchService` and passed
verbatim to `qdrant_client.search`. -/
structure SearchParams where
  collection_name : String
  query_vector : Embedding
  limit : Nat
  score_threshold : Rat
deriving DecidableEq, Repr

/-- One external call performed by the embedded code, in order. -/
inductive Action where
  | getClient
  | fetchRecords (collection : String)
  | initEmbedding
  | embedCall (text : String) (taskType : String)
  | qdrantSearchCall (params : SearchParams)
  | getCollection (name : String)
  | createCollection (name : String) (vectorSize : Nat)
  | upsertCall (collection : String) (pointId : String)
deriving DecidableEq, Repr

/-- Oracle for the Gemini embedding API: text and (already resolved) task
type to an embedding or an exception. -/
abbrev EmbedApi := String → String → Except PyExc Embedding

/-- Oracle for Qdrant's `search`. -/
abbrev QdrantSearchApi := SearchParams → Except PyExc (List ScoredPoint)

/-- The `search_params` built by `VectorSearchService.search_products`:
collection `"products"`, the caller's limit, and
`score_threshold if score_threshold is not None else 0.60`. -/
def productSearchParams (queryVector : Embedding) (limit : Nat)
    (score_threshold : Option Rat) : SearchParams :=
  { collection_name := "products"
    query_vector := queryVector
    limit := limit
    score_threshold :=
      match score_threshold with
      | some t => t
      | none => 0.60 }

/-- The `search_params` built by `VectorSearchService.search_branches`:
collection `"branches"`, the caller's limit, and
`score_threshold if score_threshold is not None else 0.55`. -/
def branchSearchParams (queryVector : Embedding) (limit : Nat)
    (score_threshold : Option Rat) : SearchParams :=
  { collection_name := "branches"
    query_vector := queryVector
    limit := limit
    score_threshold :=
      match score_threshold with
      | some t => t
      | none => 0.55 }

/-- `VectorSearchService.search_products`: embed the query with task type
`"RETRIEVAL_QUERY"`, search Qdrant with `productSearchParams`, and return the
payload ids of the scored points in Qdrant's order.  There is no exception
handling in the source: any exception from either stage propagates to the
caller unchanged.  The second component is the trace of external calls. -/
def search_products (api : EmbedApi) (qd : QdrantSearchApi)
    (query : String) (limit : Nat) (score_threshold : Option Rat) :
    Except PyExc (List String) × List Action :=
  let tt := resolveTaskType (some "RETRIEVAL_QUERY")
  match api query tt with
  | .error e => (.error e, [.embedCall query tt])
  | .ok emb =>
    let params := productSearchParams emb limit score_threshold
    match qd params with
    | .error e => (.error e, [.embedCall query tt, .qdrantSearchCall params])
    | .ok results =>
      (.ok (results.map ScoredPoint.payloadId),
       [.embedCall query tt, .qdrantSearchCall params])

/-- `VectorSearchService.search_branches`: same shape as `search_products`
with collection `"branches"` and default threshold 0.55. -/
def search_branches (api : EmbedApi) (qd : QdrantSearchApi)
    (query : String) (limit : Nat) (score_threshold : Option Rat) :
    Except PyExc (List String) × List Action :=
  let tt := resolveTaskType (some "RETRIEVAL_QUERY")
  match api query tt with
  | .error e => (.error e, [.embedCall query tt])
  | .ok emb =>
    let params := branchSearchParams emb limit score_threshold
    match qd params with
    | .error e => (.error e, [.embedCall query tt, .qdrantSearchCall params])
    | .ok results =>
      (.ok (results.map ScoredPoint.payloadId),
       [.embedCall query tt, .qdrantSearchCall params])

/-- The hydration loop of `ProductQuery.search_products` and
`BranchQuery.search_branches` (schema/*/queries.py): for each id, in the
order the vector search returned them, fetch the record by id and append it
if present; absent ids are silently dropped.  `store` models
`repo.get_by_id`, which returns the record or `None` and raises no error for
a missing id. -/
def fetchInOrder {R : Type} (store : String → Option R) : List String → List R
  | [] => []
  | id :: rest =>
    match store id with
    | some r => r :: fetchInOrder store rest
    | none => fetchInOrder store rest

/-- A product record as read by the vectorization job (`models.py` Product):
only `id` and `name` are used. -/
structure Product where
  id : String
  name : String
deriving DecidableEq, Repr

/-- A branch record as read by the vectorization job: `id`, `name`,
`address`. -/
structure Branch where
  id : String
  name : String
  address : String
deriving DecidableEq, Repr

/-- A Qdrant `PointStruct` as built in `api/routes.py`: point id (the uuid5
of the record id), the embedding vector, and the payload fields. -/
structure PointStruct where
  pid : String
  vector : Embedding
  payloadId : String
  payloadName : String
  payloadAddress : Option String := none
deriving DecidableEq, Repr

/-- The state of one Qdrant collection: its points keyed by point id.
Qdrant guarantees at most one point per id; `upsertPoint` maintains that. -/
abbrev QIndex := List (String × PointStruct)

/-- The ids of the points in a collection. -/
def pointIds (ix : QIndex) : List String := ix.map Prod.fst

/-- Qdrant upsert semantics: writing a point with an id that is already in
the collection replaces that point; otherwise the point is added. -/
def upsertPoint (ix : QIndex) (k : String) (p : PointStruct) : QIndex :=
  if ix.any (fun kv => kv.1 = k) then
    ix.map (fun kv => if kv.1 = k then (k, p) else kv)
  else
    ix ++ [(k, p)]

/-- One entry of the job's `errors` list: record id, record name, the stage
label (`"embedding_generation"` or `"qdrant_upsert"`), and the message. -/
structure ErrEntry where
  record_id : String
  record_name : String
  stage : String
  error : String
deriving DecidableEq, Repr

/-- One entry of the job's `skipped` list: record id, the record name when
the source includes it in the entry, and the reason. -/
structure SkipEntry where
  record_id : String
  record_name : Option String := none
  reason : String
deriving DecidableEq, Repr

/-- The mutable state of the vectorization loop: the Qdrant collection
being written, `vectorized_count`, `errors`, `skipped`, and the trace of
external calls made so far. -/
structure JobState where
  index : QIndex
  count : Nat
  errors : List ErrEntry
  skipped : List SkipEntry
  trace : List Action
deriving Repr

/-- The loop state at job start: counters and lists empty, the Qdrant
collection in whatever state it already is. -/
def initJobState (ix : QIndex) : JobState :=
  { index := ix, count := 0, errors := [], skipped := [], trace := [] }

/-- Oracle for Qdrant `upsert`: `none` means the upsert succeeds, `some e`
that it raises `e`.  A function of the point id, so a fixed backend behaves
the same on identical writes. -/
abbrev UpsertApi := String → Option PyExc

/-- The embed-then-upsert tail shared by both vectorization loops
(api/routes.py): generate the embedding for `text` (task type defaulted,
hence `settings.embedding_task_type`), derive the point id
`uuid5(NAMESPACE_DNS, record_id)`, and upsert; an embedding failure is
recorded with stage `"embedding_generation"`, an upsert failure with stage
`"qdrant_upsert"`, and a successful upsert increments `vectorized_count`. -/
def embedUpsertStep (uuid5 : String → String) (api : EmbedApi)
    (upsert : UpsertApi) (collection : String) (st : JobState)
    (rid rname text : String) (payloadAddress : Option String) : JobState :=
  let tt := resolveTaskType none
  match api text tt with
  | .error e =>
    { st with
      errors := st.errors ++
        [{ record_id := rid, record_name := rname,
           stage := "embedding_generation", error := e.msg }]
      trace := st.trace ++ [.embedCall text tt] }
  | .ok emb =>
    let pid := uuid5 rid
    let point : PointStruct :=
      { pid := pid, vector := emb, payloadId := rid, payloadName := rname,
        payloadAddress := payloadAddress }
    match upsert pid with
    | some e =>
      { st with
        errors := st.errors ++
          [{ record_id := rid, record_name := rname,
             stage := "qdrant_upsert", error := e.msg }]
        trace := st.trace ++ [.embedCall text tt, .upsertCall collection pid] }
    | none =>
      { st with
        index := upsertPoint st.index pid point
        count := st.count + 1
        trace := st.trace ++ [.embedCall text tt, .upsertCall collection pid] }

/-- One iteration of the product loop in `vectorize_all_products`:
skip the product when its name is blank, else embed the name and upsert. -/
def productStep (uuid5 : String → String) (api : EmbedApi)
    (upsert : UpsertApi) (st : JobState) (p : Product) : JobState :=
  if isBlank p.name then
    { st with
      skipped := st.skipped ++
        [{ record_id := p.id, reason := "Empty or missing product name" }] }
  else
    embedUpsertStep uuid5 api upsert "products" st p.id p.name p.name none

/-- One iteration of the branch loop in `vectorize_all_branches`: skip when
the name is blank, then when the address is blank; else embed the derived
text — branch name and address joined by a single space — and upsert with
the address in the payload. -/
def branchStep (uuid5 : String → String) (api : EmbedApi)
    (upsert : UpsertApi) (st : JobState) (b : Branch) : JobState :=
  if isBlank b.name then
    { st with
      skipped := st.skipped ++
        [{ record_id := b.id, reason := "Empty or missing branch name" }] }
  else if isBlank b.address then
    { st with
      skipped := st.skipped ++
        [{ record_id := b.id, record_name := some b.name,
           reason := "Empty or missing branch address" }] }
  else
    embedUpsertStep uuid5 api upsert "branches" st b.id b.name
      (b.name ++ " " ++ b.address) (some b.address)

/-- The product loop: strictly sequential fold over the records. -/
def runProducts (uuid5 : String → String) (api : EmbedApi)
    (upsert : UpsertApi) (records : List Product) (st : JobState) : JobState :=
  records.foldl (productStep uuid5 api upsert) st

/-- The branch loop: strictly sequential fold over the records. -/
def runBranches (uuid5 : String → String) (api : EmbedApi)
    (upsert : UpsertApi) (records : List Branch) (st : JobState) : JobState :=
  records.foldl (branchStep uuid5 api upsert) st

/-- The Qdrant point id derived for a record in the vectorization job:
`str(uuid.uuid5(uuid.NAMESPACE_DNS, record.id))`, i.e. an external
deterministic function (`uuid5`) applied to the record's Mongo id and
nothing else. -/
def recordPointId (uuid5 : String → String) (recordId : String) : String :=
  uuid5 recordId

/-- The point ids the product loop will upsert successfully, as determined
by the records and the (deterministic) oracles: a record contributes iff its
name is not blank, its embedding succeeds, and its upsert succeeds. -/
def productUpsertId (uuid5 : String → String) (api : EmbedApi)
    (upsert : UpsertApi) (p : Product) : Option String :=
  if isBlank p.name then none
  else
    match api p.name (resolveTaskType none) with
    | .error _ => none
    | .ok _ =>
      match upsert (uuid5 p.id) with
      | some _ => none
      | none => some (uuid5 p.id)

/-- Branch analogue of `productUpsertId`. -/
def branchUpsertId (uuid5 : String → String) (api : EmbedApi)
    (upsert : UpsertApi) (b : Branch) : Option String :=
  if isBlank b.name then none
  else if isBlank b.address then none
  else
    match api (b.name ++ " " ++ b.address) (resolveTaskType none) with
    | .error _ => none
    | .ok _ =>
      match upsert (uuid5 b.id) with
      | some _ => none
      | none => some (uuid5 b.id)

/-- The number of records a loop state has accounted for: each processed
record lands in exactly one of `vectorized_count`, `errors`, `skipped`. -/
def jobSum (st : JobState) : Nat :=
  st.count + st.errors.length + st.skipped.length

/-- The point ids the product loop upserts, in processing order. -/
def productUpsertIds (uuid5 : String → String) (api : EmbedApi)
    (upsert : UpsertApi) (records : List Product) : List String :=
  records.filterMap (productUpsertId uuid5 api upsert)

/-- The point ids the branch loop upserts, in processing order. -/
def branchUpsertIds (uuid5 : String → String) (api : EmbedApi)
    (upsert : UpsertApi) (records : List Branch) : List String :=
  records.filterMap (branchUpsertId uuid5 api upsert)

/-- The status computation at the end of both vectorization jobs:
`"failed"` when `vectorized_count == 0`, else `"partial_success"` when
`errors or skipped` is truthy (either list non-empty), else `"success"`. -/
def jobStatus (count : Nat) (errors : List ErrEntry)
    (skipped : List SkipEntry) : String :=
  if count = 0 then "failed"
  else if !errors.isEmpty || !skipped.isEmpty then "partial_success"
  else "success"

/-- The JSON report returned by the vectorization endpoints, flattened into
a record.  In the source, `errors` / `skipped` keys are present only when
non-empty and hold at most the first 10 entries; here `errors_shown` /
`skipped_shown` hold those truncated lists (empty list standing for an
absent key), `errors_truncated` / `skipped_truncated` the optional
truncation notices, and the `summary_*` fields the full counts from the
`summary` dictionary. -/
structure VectorizeResponse where
  status : String
  collection : String
  collection_created : Bool
  summary_total : Nat
  summary_vectorized : Nat
  summary_errors : Nat
  summary_skipped : Nat
  errors_shown : List ErrEntry
  errors_truncated : Option String
  skipped_shown : List SkipEntry
  skipped_truncated : Option String
deriving DecidableEq, Repr

/-- The response built by both endpoints after the loop: the status
trichotomy, the full counts in `summary`, `errors[:10]` with a
`errors_truncated` notice when more than 10, and likewise for `skipped`. -/
def buildReport (collection : String) (created : Bool) (total : Nat)
    (st : JobState) : VectorizeResponse :=
  { status := jobStatus st.count st.errors st.skipped
    collection := collection
    collection_created := created
    summary_total := total
    summary_vectorized := st.count
    summary_errors := st.errors.length
    summary_skipped := st.skipped.length
    errors_shown := st.errors.take 10
    errors_truncated :=
      if st.errors.length > 10 then
        some ("Showing 10 of " ++ toString st.errors.length ++ " errors")
      else none
    skipped_shown := st.skipped.take 10
    skipped_truncated :=
      if st.skipped.length > 10 then
        some ("Showing 10 of " ++ toString st.skipped.length ++ " skipped items")
      else none }

/-- The early response returned when the record store holds no records of
the requested type: `status: "no_data"`, `total: 0`, `vectorized: 0`. -/
def noDataResponse (collection : String) : VectorizeResponse :=
  { status := "no_data"
    collection := collection
    collection_created := false
    summary_total := 0
    summary_vectorized := 0
    summary_errors := 0
    summary_skipped := 0
    errors_shown := []
    errors_truncated := none
    skipped_shown := []
    skipped_truncated := none }

/-- An HTTP error raised by the endpoint outside the loop (a 503 for an
unavailable client or embedding service, a 500 for collection-setup
failure). -/
inductive HttpError where
  | serviceUnavailable (detail : String)
  | internalError (detail : String)
deriving DecidableEq, Repr

/-- The full `vectorize_all_products` endpoint (api/routes.py).  Gates, in
source order: the Qdrant client must be initialized (`clientInit`, else a
503 before anything else); the records are fetched and, when there are
none, the `no_data` response is returned before the embedding service is
constructed or the collection touched; the embedding service is initialized
(`embedInitOk`, else 503); the collection is probed (`collectionExists`)
and, when absent, created (`createOk`, else 500).  Then the sequential
record loop runs and the report is built. -/
def vectorize_all_products (clientInit embedInitOk : Bool)
    (uuid5 : String → String) (api : EmbedApi) (upsert : UpsertApi)
    (collectionExists createOk : Bool)
    (records : List Product) (ix : QIndex) :
    Except HttpError VectorizeResponse × List Action :=
  if !clientInit then
    (.error (.serviceUnavailable "Qdrant client is not initialized"),
     [.getClient])
  else
    let tr0 : List Action := [.getClient, .fetchRecords "products"]
    if records.isEmpty then
      (.ok (noDataResponse "products"), tr0)
    else if !embedInitOk then
      (.error (.serviceUnavailable "Failed to initialize Gemini embedding service"),
       tr0 ++ [.initEmbedding])
    else if collectionExists then
      let final := runProducts uuid5 api upsert records (initJobState ix)
      (.ok (buildReport "products" false records.length final),
       tr0 ++ [.initEmbedding, .getCollection "products"] ++ final.trace)
    else if createOk then
      let final := runProducts uuid5 api upsert records (initJobState ix)
      (.ok (buildReport "products" true records.length final),
       tr0 ++ [.initEmbedding, .getCollection "products",
               .createCollection "products" 768] ++ final.trace)
    else
      (.error (.internalError "Collection creation failed"),
       tr0 ++ [.initEmbedding, .getCollection "products",
               .createCollection "products" 768])

/-- The full `vectorize_all_branches` endpoint; identical gate structure
with branch records and the `"branches"` collection. -/
def vectorize_all_branches (clientInit embedInitOk : Bool)
    (uuid5 : String → String) (api : EmbedApi) (upsert : UpsertApi)
    (collectionExists createOk : Bool)
    (records : List Branch) (ix : QIndex) :
    Except HttpError VectorizeResponse × List Action :=
  if !clientInit then
    (.error (.serviceUnavailable "Qdrant client is not initialized"),
     [.getClient])
  else
    let tr0 : List Action := [.getClient, .fetchRecords "branches"]
    if records.isEmpty then
      (.ok (noDataResponse "branches"), tr0)
    else if !embedInitOk then
      (.error (.serviceUnavailable "Failed to initialize Gemini embedding service"),
       tr0 ++ [.initEmbedding])
    else if collectionExists then
      let final := runBranches uuid5 api upsert records (initJobState ix)
      (.ok (buildReport "branches" false records.length final),
       tr0 ++ [.initEmbedding, .getCollection "branches"] ++ final.trace)
    else if createOk then
      let final := runBranches uuid5 api upsert records (initJobState ix)
      (.ok (buildReport "branches" true records.length final),
       tr0 ++ [.initEmbedding, .getCollection "branches",
               .createCollection "branches" 768] ++ final.trace)
    else
      (.error (.internalError "Collection creation failed"),
       tr0 ++ [.initEmbedding, .getCollection "branches",
               .createCollection "branches" 768])

/-- Qdrant distance metrics accepted by `create_collection`. -/
inductive Distance where
  | cosine
  | euclid
  | dot
  | manhattan
deriving DecidableEq, Repr

/-- The collections known to the Qdrant server: name, vector size, distance
metric. -/
structure CollectionsState where
  collections : List (String × Nat × Distance)
deriving DecidableEq, Repr

/-- The names of the existing collections, as read from
`client.get_collections()`. -/
def collectionNames (st : CollectionsState) : List String :=
  st.collections.map Prod.fst

/-- `create_collection` (clients/qdrant_client.py): list the existing
collections; if the name is already there, return `True` without touching
the server; otherwise call the backend's create (`backendOk` models whether
that call returns a truthy result) and return its outcome.  The result is
the returned bool paired with the server state after the call. -/
def create_collection (backendOk : Bool) (st : CollectionsState)
    (collection_name : String) (vector_size : Nat) (distance : Distance) :
    Bool × CollectionsState :=
  if collection_name ∈ collectionNames st then
    (true, st)
  else if backendOk then
    (true, ⟨st.collections ++ [(collection_name, vector_size, distance)]⟩)
  else
    (false, st)

/-- Actions that initialize the embedding service, create a collection,
call the embedding API, or write points: exactly the work the no_data
early return must never perform. -/
def isSetupOrWriteAction : Action → Bool
  | .initEmbedding => true
  | .createCollection _ _ => true
  | .embedCall _ _ => true
  | .upsertCall _ _ => true
  | _ => false

/-- The task types of the embedding calls in a trace, in order. -/
def embedTaskTypes : List Action → List String
  | [] => []
  | .embedCall _ tt :: rest => tt :: embedTaskTypes rest
  | _ :: rest => embedTaskTypes rest

/-- The vector-search path of `ProductQuery.search_products`
(schema/products/queries.py): call the service with the caller's query and
limit (no threshold override), then hydrate the returned ids in order from
the product store. -/
def search_products_resolver (api : EmbedApi) (qd : QdrantSearchApi)
    (store : String → Option Product) (query : String) (limit : Nat) :
    Except PyExc (List Product) :=
  match (search_products api qd query limit none).1 with
  | .error e => .error e
  | .ok ids => .ok (fetchInOrder store ids)

/-- The vector-search path of `BranchQuery.search_branches`
(schema/branches/queries.py). -/
def search_branches_resolver (api : EmbedApi) (qd : QdrantSearchApi)
    (store : String → Option Branch) (query : String) (limit : Nat) :
    Except PyExc (List Branch) :=
  match (search_branches api qd query limit none).1 with
  | .error e => .error e
  | .ok ids => .ok (fetchInOrder store ids)

/-- A concrete embedding oracle that always fails, with the exception type
a Gemini client would raise. -/
def embedFailApi : EmbedApi :=
  fun _ _ => .error ⟨"GoogleAPIError", "embedding backend down"⟩

/-- A concrete embedding oracle that always succeeds. -/
def embedOkApi : EmbedApi := fun _ _ => .ok [1]

/-- A concrete Qdrant search oracle that always fails, with the exception
type the Qdrant client library raises on connection problems. -/
def qdrantFailApi : QdrantSearchApi :=
  fun _ => .error ⟨"ResponseHandlingException", "qdrant connection refused"⟩

/-- A concrete Qdrant search oracle returning no hits. -/
def qdrantEmptyApi : QdrantSearchApi := fun _ => .ok []

/-! ## Helper lemmas -/

theorem resolveTaskType_query :
    resolveTaskType (some "RETRIEVAL_QUERY") = "RETRIEVAL_QUERY" := rfl

theorem fetchInOrder_eq_filterMap {R : Type} (store : String → Option R) :
    ∀ ids : List String, fetchInOrder store ids = ids.filterMap store := by
  intro ids
  induction ids with
  | nil => rfl
  | cons i rest ih =>
    cases h : store i <;> simp [fetchInOrder, List.filterMap_cons, h, ih]

theorem isBlank_append (s t : String) :
    isBlank (s ++ t) = (isBlank s && isBlank t) := by
  simp [isBlank, String.data_append, List.all_append]

theorem resolveTaskType_none :
    resolveTaskType none = "RETRIEVAL_DOCUMENT" := rfl

theorem mem_pointIds_upsertPoint (ix : QIndex) (k : String) (p : PointStruct) :
    pointIds (upsertPoint ix k p)
      = if k ∈ pointIds ix then pointIds ix else pointIds ix ++ [k] := by
  unfold upsertPoint pointIds
  by_cases h : k ∈ ix.map Prod.fst
  · have hany : ix.any (fun kv => kv.1 = k) = true := by
      rcases List.mem_map.1 h with ⟨kv, hkv, hfst⟩
      exact List.any_eq_true.2 ⟨kv, hkv, by simp [hfst]⟩
    rw [if_pos hany, if_pos h, List.map_map]
    apply List.map_congr_left
    intro kv _
    by_cases hk : kv.1 = k <;> simp [hk]
  · have hany : ix.any (fun kv => kv.1 = k) = false := by
      rw [List.any_eq_false]
      intro kv hkv
      simp only [decide_eq_true_eq]
      intro hfst
      exact h (List.mem_map.2 ⟨kv, hkv, hfst⟩)
    rw [if_neg (by simp [hany]), if_neg h, List.map_append]
    rfl

theorem embedTaskTypes_append (l₁ l₂ : List Action) :
    embedTaskTypes (l₁ ++ l₂) = embedTaskTypes l₁ ++ embedTaskTypes l₂ := by
  induction l₁ with
  | nil => rfl
  | cons a rest ih => cases a <;> simp [embedTaskTypes, ih]

/-! ### Generic lemmas about the sequential record loop -/

theorem foldl_jobSum {α : Type} (step : JobState → α → JobState)
    (hstep : ∀ st a, jobSum (step st a) = jobSum st + 1) :
    ∀ (l : List α) (st : JobState),
      jobSum (l.foldl step st) = jobSum st + l.length := by
  intro l
  induction l with
  | nil => intro st; simp
  | cons a rest ih =>
    intro st
    rw [List.foldl_cons, ih (step st a), hstep st a]
    simp [Nat.add_comm, Nat.add_assoc, Nat.add_left_comm]

theorem foldl_embedTaskTypes_all {α : Type} (p : String → Bool)
    (step : JobState → α → JobState)
    (hstep : ∀ st a, (embedTaskTypes st.trace).all p = true →
      (embedTaskTypes (step st a).trace).all p = true) :
    ∀ (l : List α) (st : JobState), (embedTaskTypes st.trace).all p = true →
      (embedTaskTypes (l.foldl step st).trace).all p = true := by
  intro l
  induction l with
  | nil => intro st h; simpa using h
  | cons a rest ih =>
    intro st h
    rw [List.foldl_cons]
    exact ih (step st a) (hstep st a h)

theorem foldl_pointIds_mono {α : Type} (step : JobState → α → JobState)
    (hmono : ∀ st a k, k ∈ pointIds st.index → k ∈ pointIds (step st a).index) :
    ∀ (l : List α) (st : JobState) (k : String),
      k ∈ pointIds st.index → k ∈ pointIds (l.foldl step st).index := by
  intro l
  induction l with
  | nil => intro st k h; simpa using h
  | cons a rest ih =>
    intro st k h
    rw [List.foldl_cons]
    exact ih (step st a) k (hmono st a k h)

theorem foldl_upsertIds_mem {α : Type} (step : JobState → α → JobState)
    (uid : α → Option String)
    (hmono : ∀ st a k, k ∈ pointIds st.index → k ∈ pointIds (step st a).index)
    (hmem : ∀ st a k, uid a = some k → k ∈ pointIds (step st a).index) :
    ∀ (l : List α) (st : JobState) (k : String),
      k ∈ l.filterMap uid → k ∈ pointIds (l.foldl step st).index := by
  intro l
  induction l with
  | nil => intro st k h; simp at h
  | cons a rest ih =>
    intro st k h
    rw [List.foldl_cons]
    rw [List.filterMap_cons] at h
    cases ha : uid a with
    | none =>
      rw [ha] at h
      exact ih (step st a) k h
    | some k' =>
      rw [ha] at h
      rcases List.mem_cons.1 h with h1 | h1
      · subst h1
        exact foldl_pointIds_mono step hmono rest (step st a) k (hmem st a k ha)
      · exact ih (step st a) k h1

theorem foldl_pointIds_stable {α : Type} (step : JobState → α → JobState)
    (uid : α → Option String)
    (hnone : ∀ st a, uid a = none → (step st a).index = st.index)
    (hsome : ∀ st a k, uid a = some k → k ∈ pointIds st.index →
      pointIds (step st a).index = pointIds st.index) :
    ∀ (l : List α) (st : JobState),
      (∀ k ∈ l.filterMap uid, k ∈ pointIds st.index) →
      pointIds (l.foldl step st).index = pointIds st.index := by
  intro l
  induction l with
  | nil => intro st _; simp
  | cons a rest ih =>
    intro st hsub
    rw [List.foldl_cons]
    cases ha : uid a with
    | none =>
      have hidx : (step st a).index = st.index := hnone st a ha
      have := ih (step st a) (by
        intro k hk
        rw [hidx]
        exact hsub k (by rw [List.filterMap_cons, ha]; exact hk))
      rw [this, hidx]
    | some k' =>
      have hk' : k' ∈ pointIds st.index :=
        hsub k' (by rw [List.filterMap_cons, ha]; exact List.mem_cons_self _ _)
      have hpt : pointIds (step st a).index = pointIds st.index :=
        hsome st a k' ha hk'
      have := ih (step st a) (by
        intro k hk
        rw [hpt]
        exact hsub k (by
          rw [List.filterMap_cons, ha]
          exact List.mem_cons_of_mem _ hk))
      rw [this, hpt]

/-! ### Facts about upsert and the per-record steps -/

theorem upsertPoint_mono (ix : QIndex) (k : String) (p : PointStruct)
    (k' : String) (h : k' ∈ pointIds ix) :
    k' ∈ pointIds (upsertPoint ix k p) := by
  rw [mem_pointIds_upsertPoint]
  split
  · exact h
  · exact List.mem_append_left _ h

theorem mem_pointIds_upsertPoint_self (ix : QIndex) (k : String)
    (p : PointStruct) : k ∈ pointIds (upsertPoint ix k p) := by
  rw [mem_pointIds_upsertPoint]
  split
  · assumption
  · simp

theorem pointIds_upsertPoint_of_mem (ix : QIndex) (k : String)
    (p : PointStruct) (h : k ∈ pointIds ix) :
    pointIds (upsertPoint ix k p) = pointIds ix := by
  rw [mem_pointIds_upsertPoint, if_pos h]

theorem productStep_jobSum (u : String → String) (api : EmbedApi)
    (up : UpsertApi) (st : JobState) (p : Product) :
    jobSum (productStep u api up st p) = jobSum st + 1 := by
  by_cases hb : isBlank p.name
  · simp [productStep, hb, jobSum]
    omega
  · rcases he : api p.name (resolveTaskType none) with e | emb
    · simp [productStep, hb, embedUpsertStep, he, jobSum]
      omega
    · rcases h2 : up (u p.id) with _ | e2
      · simp [productStep, hb, embedUpsertStep, he, h2, jobSum]
        omega
      · simp [productStep, hb, embedUpsertStep, he, h2, jobSum]
        omega

theorem productStep_taskTypes (u : String → String) (api : EmbedApi)
    (up : UpsertApi) (st : JobState) (p : Product)
    (h : (embedTaskTypes st.trace).all (fun tt => tt == "RETRIEVAL_DOCUMENT") = true) :
    (embedTaskTypes (productStep u api up st p).trace).all
      (fun tt => tt == "RETRIEVAL_DOCUMENT") = true := by
  by_cases hb : isBlank p.name
  · simpa [productStep, hb] using h
  · rcases he : api p.name "RETRIEVAL_DOCUMENT" with e | emb
    · simp [productStep, hb, embedUpsertStep, resolveTaskType_none, he,
        embedTaskTypes_append, List.all_append, h, embedTaskTypes]
    · rcases h2 : up (u p.id) with _ | e2
      · simp [productStep, hb, embedUpsertStep, resolveTaskType_none, he, h2,
          embedTaskTypes_append, List.all_append, h, embedTaskTypes]
      · simp [productStep, hb, embedUpsertStep, resolveTaskType_none, he, h2,
          embedTaskTypes_append, List.all_append, h, embedTaskTypes]

theorem productStep_index_none (u : String → String) (api : EmbedApi)
    (up : UpsertApi) (st : JobState) (p : Product)
    (hn : productUpsertId u api up p = none) :
    (productStep u api up st p).index = st.index := by
  by_cases hb : isBlank p.name
  · simp [productStep, hb]
  · rcases he : api p.name (resolveTaskType none) with e | emb
    · simp [productStep, hb, embedUpsertStep, he]
    · rcases h2 : up (u p.id) with _ | e2
      · exfalso
        simp [productUpsertId, hb, he, h2] at hn
      · simp [productStep, hb, embedUpsertStep, he, h2]

theorem productStep_index_some (u : String → String) (api : EmbedApi)
    (up : UpsertApi) (st : JobState) (p : Product) (k : String)
    (hs : productUpsertId u api up p = some k) :
    ∃ pt : PointStruct,
      (productStep u api up st p).index = upsertPoint st.index k pt := by
  by_cases hb : isBlank p.name
  · simp [productUpsertId, hb] at hs
  · rcases he : api p.name (resolveTaskType none) with e | emb
    · simp [productUpsertId, hb, he] at hs
    · rcases h2 : up (u p.id) with _ | e2
      · have hk : u p.id = k := by
          simpa [productUpsertId, hb, he, h2] using hs
        subst hk
        refine ⟨{ pid := u p.id, vector := emb, payloadId := p.id,
                  payloadName := p.name, payloadAddress := none }, ?_⟩
        simp [productStep, hb, embedUpsertStep, he, h2]
      · simp [productUpsertId, hb, he, h2] at hs

theorem productStep_mono (u : String → String) (api : EmbedApi)
    (up : UpsertApi) (st : JobState) (p : Product) (k : String)
    (h : k ∈ pointIds st.index) :
    k ∈ pointIds (productStep u api up st p).index := by
  cases hu : productUpsertId u api up p with
  | none => rw [productStep_index_none u api up st p hu]; exact h
  | some k' =>
    obtain ⟨pt, hpt⟩ := productStep_index_some u api up st p k' hu
    rw [hpt]
    exact upsertPoint_mono _ _ _ _ h

theorem productStep_mem (u : String → String) (api : EmbedApi)
    (up : UpsertApi) (st : JobState) (p : Product) (k : String)
    (h : productUpsertId u api up p = some k) :
    k ∈ pointIds (productStep u api up st p).index := by
  obtain ⟨pt, hpt⟩ := productStep_index_some u api up st p k h
  rw [hpt]
  exact mem_pointIds_upsertPoint_self _ _ _

theorem productStep_stable (u : String → String) (api : EmbedApi)
    (up : UpsertApi) (st : JobState) (p : Product) (k : String)
    (h : productUpsertId u api up p = some k) (hk : k ∈ pointIds st.index) :
    pointIds (productStep u api up st p).index = pointIds st.index := by
  obtain ⟨pt, hpt⟩ := productStep_index_some u api up st p k h
  rw [hpt]
  exact pointIds_upsertPoint_of_mem _ _ _ hk

theorem branchStep_jobSum (u : String → String) (api : EmbedApi)
    (up : UpsertApi) (st : JobState) (b : Branch) :
    jobSum (branchStep u api up st b) = jobSum st + 1 := by
  by_cases hb : isBlank b.name
  · simp [branchStep, hb, jobSum]
    omega
  · by_cases ha : isBlank b.address
    · simp [branchStep, hb, ha, jobSum]
      omega
    · rcases he : api (b.name ++ " " ++ b.address) (resolveTaskType none) with e | emb
      · simp [branchStep, hb, ha, embedUpsertStep, he, jobSum]
        omega
      · rcases h2 : up (u b.id) with _ | e2
        · simp [branchStep, hb, ha, embedUpsertStep, he, h2, jobSum]
          omega
        · simp [branchStep, hb, ha, embedUpsertStep, he, h2, jobSum]
          omega

theorem branchStep_taskTypes (u : String → String) (api : EmbedApi)
    (up : UpsertApi) (st : JobState) (b : Branch)
    (h : (embedTaskTypes st.trace).all (fun tt => tt == "RETRIEVAL_DOCUMENT") = true) :
    (embedTaskTypes (branchStep u api up st b).trace).all
      (fun tt => tt == "RETRIEVAL_DOCUMENT") = true := by
  by_cases hb : isBlank b.name
  · simpa [branchStep, hb] using h
  · by_cases ha : isBlank b.address
    · simpa [branchStep, hb, ha] using h
    · rcases he : api (b.name ++ " " ++ b.address) "RETRIEVAL_DOCUMENT" with e | emb
      · simp [branchStep, hb, ha, embedUpsertStep, resolveTaskType_none, he,
          embedTaskTypes_append, List.all_append, h, embedTaskTypes]
      · rcases h2 : up (u b.id) with _ | e2
        · simp [branchStep, hb, ha, embedUpsertStep, resolveTaskType_none, he,
            h2, embedTaskTypes_append, List.all_append, h, embedTaskTypes]
        · simp [branchStep, hb, ha, embedUpsertStep, resolveTaskType_none, he,
            h2, embedTaskTypes_append, List.all_append, h, embedTaskTypes]

theorem branchStep_index_none (u : String → String) (api : EmbedApi)
    (up : UpsertApi) (st : JobState) (b : Branch)
    (hn : branchUpsertId u api up b = none) :
    (branchStep u api up st b).index = st.index := by
  by_cases hb : isBlank b.name
  · simp [branchStep, hb]
  · by_cases ha : isBlank b.address
    · simp [branchStep, hb, ha]
    · rcases he : api (b.name ++ " " ++ b.address) (resolveTaskType none) with e | emb
      · simp [branchStep, hb, ha, embedUpsertStep, he]
      · rcases h2 : up (u b.id) with _ | e2
        · exfalso
          simp [branchUpsertId, hb, ha, he, h2] at hn
        · simp [branchStep, hb, ha, embedUpsertStep, he, h2]

theorem branchStep_index_some (u : String → String) (api : EmbedApi)
    (up : UpsertApi) (st : JobState) (b : Branch) (k : String)
    (hs : branchUpsertId u api up b = some k) :
    ∃ pt : PointStruct,
      (branchStep u api up st b).index = upsertPoint st.index k pt := by
  by_cases hb : isBlank b.name
  · simp [branchUpsertId, hb] at hs
  · by_cases ha : isBlank b.address
    · simp [branchUpsertId, hb, ha] at hs
    · rcases he : api (b.name ++ " " ++ b.address) (resolveTaskType none) with e | emb
      · simp [branchUpsertId, hb, ha, he] at hs
      · rcases h2 : up (u b.id) with _ | e2
        · have hk : u b.id = k := by
            simpa [branchUpsertId, hb, ha, he, h2] using hs
          subst hk
          refine ⟨{ pid := u b.id, vector := emb, payloadId := b.id,
                    payloadName := b.name, payloadAddress := some b.address }, ?_⟩
          simp [branchStep, hb, ha, embedUpsertStep, he, h2]
        · simp [branchUpsertId, hb, ha, he, h2] at hs

theorem branchStep_mono (u : String → String) (api : EmbedApi)
    (up : UpsertApi) (st : JobState) (b : Branch) (k : String)
    (h : k ∈ pointIds st.index) :
    k ∈ pointIds (branchStep u api up st b).index := by
  cases hu : branchUpsertId u api up b with
  | none => rw [branchStep_index_none u api up st b hu]; exact h
  | some k' =>
    obtain ⟨pt, hpt⟩ := branchStep_index_some u api up st b k' hu
    rw [hpt]
    exact upsertPoint_mono _ _ _ _ h

theorem branchStep_mem (u : String → String) (api : EmbedApi)
    (up : UpsertApi) (st : JobState) (b : Branch) (k : String)
    (h : branchUpsertId u api up b = some k) :
    k ∈ pointIds (branchStep u api up st b).index := by
  obtain ⟨pt, hpt⟩ := branchStep_index_some u api up st b k h
  rw [hpt]
  exact mem_pointIds_upsertPoint_self _ _ _

theorem branchStep_stable (u : String → String) (api : EmbedApi)
    (up : UpsertApi) (st : JobState) (b : Branch) (k : String)
    (h : branchUpsertId u api up b = some k) (hk : k ∈ pointIds st.index) :
    pointIds (branchStep u api up st b).index = pointIds st.index := by
  obtain ⟨pt, hpt⟩ := branchStep_index_some u api up st b k h
  rw [hpt]
  exact pointIds_upsertPoint_of_mem _ _ _ hk

/-! ### Run-level consequences -/

theorem runProducts_jobSum (u : String → String) (api : EmbedApi)
    (up : UpsertApi) (records : List Product) (st : JobState) :
    jobSum (runProducts u api up records st) = jobSum st + records.length :=
  foldl_jobSum _ (fun st a => productStep_jobSum u api up st a) records st

theorem runBranches_jobSum (u : String → String) (api : EmbedApi)
    (up : UpsertApi) (records : List Branch) (st : JobState) :
    jobSum (runBranches u api up records st) = jobSum st + records.length :=
  foldl_jobSum _ (fun st a => branchStep_jobSum u api up st a) records st

theorem runProducts_pointIds_twice (u : String → String) (api : EmbedApi)
    (up : UpsertApi) (records : List Product) (ix : QIndex) :
    pointIds (runProducts u api up records (initJobState
        (runProducts u api up records (initJobState ix)).index)).index
      = pointIds (runProducts u api up records (initJobState ix)).index := by
  have hsub : ∀ k ∈ productUpsertIds u api up records,
      k ∈ pointIds (runProducts u api up records (initJobState ix)).index := by
    intro k hk
    exact foldl_upsertIds_mem _ (productUpsertId u api up)
      (fun st a k h => productStep_mono u api up st a k h)
      (fun st a k h => productStep_mem u api up st a k h)
      records (initJobState ix) k hk
  exact foldl_pointIds_stable _ (productUpsertId u api up)
    (fun st a h => productStep_index_none u api up st a h)
    (fun st a k h hk => productStep_stable u api up st a k h hk)
    records (initJobState (runProducts u api up records (initJobState ix)).index)
    hsub

theorem runBranches_pointIds_twice (u : String → String) (api : EmbedApi)
    (up : UpsertApi) (records : List Branch) (ix : QIndex) :
    pointIds (runBranches u api up records (initJobState
        (runBranches u api up records (initJobState ix)).index)).index
      = pointIds (runBranches u api up records (initJobState ix)).index := by
  have hsub : ∀ k ∈ branchUpsertIds u api up records,
      k ∈ pointIds (runBranches u api up records (initJobState ix)).index := by
    intro k hk
    exact foldl_upsertIds_mem _ (branchUpsertId u api up)
      (fun st a k h => branchStep_mono u api up st a k h)
      (fun st a k h => branchStep_mem u api up st a k h)
      records (initJobState ix) k hk
  exact foldl_pointIds_stable _ (branchUpsertId u api up)
    (fun st a h => branchStep_index_none u api up st a h)
    (fun st a k h hk => branchStep_stable u api up st a k h hk)
    records (initJobState (runBranches u api up records (initJobState ix)).index)
    hsub

theorem truthyLists_iff (e : List ErrEntry) (s : List SkipEntry) :
    (!e.isEmpty || !s.isEmpty) = true ↔ (e ≠ [] ∨ s ≠ []) := by
  simp [List.isEmpty_iff]

theorem jobStatus_spec (c : Nat) (e : List ErrEntry) (s : List SkipEntry) :
    (jobStatus c e s = "failed" ↔ c = 0) ∧
    (jobStatus c e s = "partial_success" ↔ c ≠ 0 ∧ (e ≠ [] ∨ s ≠ [])) ∧
    (jobStatus c e s = "success" ↔ c ≠ 0 ∧ e = [] ∧ s = []) := by
  have hfp : ("failed" : String) ≠ "partial_success" := by decide
  have hfs : ("failed" : String) ≠ "success" := by decide
  have hps : ("partial_success" : String) ≠ "success" := by decide
  by_cases hc : c = 0
  · rw [jobStatus, if_pos hc]
    exact ⟨iff_of_true rfl hc,
           iff_of_false hfp (fun h => h.1 hc),
           iff_of_false hfs (fun h => h.1 hc)⟩
  · by_cases hcond : (!e.isEmpty || !s.isEmpty) = true
    · rw [jobStatus, if_neg hc, if_pos hcond]
      have hes := (truthyLists_iff e s).1 hcond
      refine ⟨iff_of_false (fun h => hfp h.symm) hc,
              iff_of_true rfl ⟨hc, hes⟩,
              iff_of_false hps ?_⟩
      rintro ⟨-, he, hs⟩
      rcases hes with h | h
      · exact h he
      · exact h hs
    · rw [jobStatus, if_neg hc, if_neg hcond]
      have hes : e = [] ∧ s = [] := by
        by_contra hne
        apply hcond
        rw [truthyLists_iff]
        rcases Decidable.not_and_iff_or_not.1 hne with h | h
        · exact Or.inl h
        · exact Or.inr h
      refine ⟨iff_of_false (fun h => hfs h.symm) hc,
              iff_of_false (fun h => hps h.symm) ?_,
              iff_of_true rfl ⟨hc, hes.1, hes.2⟩⟩
      rintro ⟨-, h⟩
      rcases h with h | h
      · exact h hes.1
      · exact h hes.2

/-! ## Claim theorems -/

/-- C1: for every search query, the search resolvers hydrate the ids
returned by the vector index from the record store in rank order; an id
that no longer resolves is omitted without error and without changing the
relative order of the remaining records.  Conjuncts: (1) the hydration loop
computes exactly the rank-order `filterMap` of the store over the id list
(a total function, so no error can be raised); (2) an unresolvable id in
the middle of the ranked list is dropped, the remaining results being
exactly those of the list without it; (3)/(4) the product and branch
resolvers apply exactly this hydration to the id list the vector search
returned. -/
theorem C1_resolver_skips_stale_ids_in_rank_order :
    (∀ (R : Type) (store : String → Option R) (ids : List String),
        fetchInOrder store ids = ids.filterMap store) ∧
    (∀ (R : Type) (store : String → Option R) (l₁ : List String) (b : String)
        (l₂ : List String), store b = none →
        fetchInOrder store (l₁ ++ b :: l₂) = fetchInOrder store (l₁ ++ l₂)) ∧
    (∀ (api : EmbedApi) (qd : QdrantSearchApi) (store : String → Option Product)
        (q : String) (l : Nat),
        search_products_resolver api qd store q l
          = Except.map (fetchInOrder store) (search_products api qd q l none).1) ∧
    (∀ (api : EmbedApi) (qd : QdrantSearchApi) (store : String → Option Branch)
        (q : String) (l : Nat),
        search_branches_resolver api qd store q l
          = Except.map (fetchInOrder store) (search_branches api qd q l none).1) := by
  refine ⟨fun R store ids => fetchInOrder_eq_filterMap store ids, ?_, ?_, ?_⟩
  · intro R store l₁ b l₂ hb
    simp [fetchInOrder_eq_filterMap, List.filterMap_append, List.filterMap_cons, hb]
  · intro api qd store q l
    cases h : (search_products api qd q l none).1 <;>
      simp [search_products_resolver, h, Except.map]
  · intro api qd store q l
    cases h : (search_branches api qd q l none).1 <;>
      simp [search_branches_resolver, h, Except.map]

/-- Witness for C1 at the spec's example: the index returns ids A, B, C in
that order, B no longer resolves in the store, and the hydrated result is
exactly the records of A and C in that order. -/
theorem C1_witness :
    ((fun i => if i = "B" then none else some i) "B" = (none : Option String)) ∧
    fetchInOrder (fun i => if i = "B" then (none : Option String) else some i)
        (["A"] ++ "B" :: ["C"])
      = fetchInOrder (fun i => if i = "B" then (none : Option String) else some i)
        (["A"] ++ ["C"]) ∧
    fetchInOrder (fun i => if i = "B" then (none : Option String) else some i)
        ["A", "B", "C"] = ["A", "C"] :=
  ⟨by decide,
   C1_resolver_skips_stale_ids_in_rank_order.2.1 String
     (fun i => if i = "B" then none else some i) ["A"] "B" ["C"] (by decide),
   by decide⟩

/-- C3: when the caller supplies no score threshold, the product search
passes 0.60 to the vector index and the branch search passes 0.55; when the
caller supplies a threshold, that value is the one placed in the search
parameters passed to the index. -/
theorem C3_score_threshold_defaults_and_override :
    (∀ (e : Embedding) (l : Nat),
        (productSearchParams e l none).score_threshold = 0.60) ∧
    (∀ (e : Embedding) (l : Nat) (t : Rat),
        (productSearchParams e l (some t)).score_threshold = t) ∧
    (∀ (e : Embedding) (l : Nat),
        (branchSearchParams e l none).score_threshold = 0.55) ∧
    (∀ (e : Embedding) (l : Nat) (t : Rat),
        (branchSearchParams e l (some t)).score_threshold = t) :=
  ⟨fun _ _ => rfl, fun _ _ _ => rfl, fun _ _ => rfl, fun _ _ _ => rfl⟩

/-- C7 counterexample: the claim that embedding failures and index failures
both surface as the single error type `SearchUnavailableError` is false: the
orchestrator has no exception handling, so at these concrete inputs an
embedding failure surfaces as the raw embedding-client exception type
(`GoogleAPIError`) and an index failure as the raw index-client exception
type (`ResponseHandlingException`); the two surfaced types differ from each
other, so the two causes do not share one error type, and neither is a
`SearchUnavailableError`. -/
theorem C7_counterexample_no_single_error_type :
    (search_products embedFailApi qdrantEmptyApi "milk" 10 none).1
      = .error ⟨"GoogleAPIError", "embedding backend down"⟩ ∧
    (search_products embedOkApi qdrantFailApi "milk" 10 none).1
      = .error ⟨"ResponseHandlingException", "qdrant connection refused"⟩ ∧
    (("GoogleAPIError" : String) == "ResponseHandlingException") = false ∧
    (("GoogleAPIError" : String) == "SearchUnavailableError") = false ∧
    (("ResponseHandlingException" : String) == "SearchUnavailableError") = false := by
  refine ⟨rfl, rfl, by decide, by decide, by decide⟩

/-- C7 amended: the orchestrator's search operations perform no exception
handling at all: an embedding failure propagates to the caller as the raw
underlying exception, unchanged, and when the embedding succeeds an
index-search failure propagates as the raw underlying exception, unchanged
— for products and branches alike.  No wrapping into a single
`SearchUnavailableError` (or any other type) occurs. -/
theorem C7_amended_errors_propagate_unwrapped :
    (∀ (api : EmbedApi) (qd : QdrantSearchApi) (q : String) (l : Nat)
        (st : Option Rat) (e : PyExc), api q "RETRIEVAL_QUERY" = .error e →
        (search_products api qd q l st).1 = .error e) ∧
    (∀ (api : EmbedApi) (qd : QdrantSearchApi) (q : String) (l : Nat)
        (st : Option Rat) (emb : Embedding) (e : PyExc),
        api q "RETRIEVAL_QUERY" = .ok emb →
        qd (productSearchParams emb l st) = .error e →
        (search_products api qd q l st).1 = .error e) ∧
    (∀ (api : EmbedApi) (qd : QdrantSearchApi) (q : String) (l : Nat)
        (st : Option Rat) (e : PyExc), api q "RETRIEVAL_QUERY" = .error e →
        (search_branches api qd q l st).1 = .error e) ∧
    (∀ (api : EmbedApi) (qd : QdrantSearchApi) (q : String) (l : Nat)
        (st : Option Rat) (emb : Embedding) (e : PyExc),
        api q "RETRIEVAL_QUERY" = .ok emb →
        qd (branchSearchParams emb l st) = .error e →
        (search_branches api qd q l st).1 = .error e) := by
  refine ⟨?_, ?_, ?_, ?_⟩
  · intro api qd q l st e h
    simp [search_products, resolveTaskType_query, h]
  · intro api qd q l st emb e h hq
    simp [search_products, resolveTaskType_query, h, hq]
  · intro api qd q l st e h
    simp [search_branches, resolveTaskType_query, h]
  · intro api qd q l st emb e h hq
    simp [search_branches, resolveTaskType_query, h, hq]

/-- Witness for the amended C7 at concrete inputs: a failing embedding
oracle's exception comes back verbatim from the branch search, and a failing
index oracle's exception comes back verbatim from the branch search run with
a working embedding oracle. -/
theorem C7_amended_witness :
    (search_branches embedFailApi qdrantEmptyApi "bakery" 5 none).1
      = .error ⟨"GoogleAPIError", "embedding backend down"⟩ ∧
    (search_branches embedOkApi qdrantFailApi "bakery" 5 none).1
      = .error ⟨"ResponseHandlingException", "qdrant connection refused"⟩ :=
  ⟨C7_amended_errors_propagate_unwrapped.2.2.1 embedFailApi qdrantEmptyApi
     "bakery" 5 none _ rfl,
   C7_amended_errors_propagate_unwrapped.2.2.2 embedOkApi qdrantFailApi
     "bakery" 5 none [1] _ rfl rfl⟩

/-- C2: the vector-index point id is `uuid5(NAMESPACE_DNS, record.id)` — a
pure function of the record's store id (conjunct 1: it depends on nothing
but the id); consequently, running the bulk job a second time over the same
record set and with the same backends leaves the set (indeed the list) of
point ids in the index unchanged, and the point count as well — the second
run overwrites instead of duplicating (conjuncts 2-5, products and
branches). -/
theorem C2_point_id_pure_and_rerun_idempotent :
    (∀ (uuid5 : String → String) (rid1 rid2 : String), rid1 = rid2 →
        recordPointId uuid5 rid1 = recordPointId uuid5 rid2) ∧
    (∀ (u : String → String) (api : EmbedApi) (up : UpsertApi)
        (records : List Product) (ix : QIndex),
        pointIds (runProducts u api up records (initJobState
            (runProducts u api up records (initJobState ix)).index)).index
          = pointIds (runProducts u api up records (initJobState ix)).index) ∧
    (∀ (u : String → String) (api : EmbedApi) (up : UpsertApi)
        (records : List Product) (ix : QIndex),
        (runProducts u api up records (initJobState
            (runProducts u api up records (initJobState ix)).index)).index.length
          = (runProducts u api up records (initJobState ix)).index.length) ∧
    (∀ (u : String → String) (api : EmbedApi) (up : UpsertApi)
        (records : List Branch) (ix : QIndex),
        pointIds (runBranches u api up records (initJobState
            (runBranches u api up records (initJobState ix)).index)).index
          = pointIds (runBranches u api up records (initJobState ix)).index) ∧
    (∀ (u : String → String) (api : EmbedApi) (up : UpsertApi)
        (records : List Branch) (ix : QIndex),
        (runBranches u api up records (initJobState
            (runBranches u api up records (initJobState ix)).index)).index.length
          = (runBranches u api up records (initJobState ix)).index.length) := by
  refine ⟨fun u r1 r2 h => by rw [h], runProducts_pointIds_twice, ?_,
          runBranches_pointIds_twice, ?_⟩
  · intro u api up records ix
    have h := runProducts_pointIds_twice u api up records ix
    have := congrArg List.length h
    simpa [pointIds] using this
  · intro u api up records ix
    have h := runBranches_pointIds_twice u api up records ix
    have := congrArg List.length h
    simpa [pointIds] using this

/-- Witness for C2: the purity conjunct applied at a concrete uuid function
and id, and the product rerun conjunct applied at a concrete one-record
job. -/
theorem C2_witness :
    recordPointId (fun s => s ++ "-uuid5") "65a1" =
      recordPointId (fun s => s ++ "-uuid5") "65a1" ∧
    pointIds (runProducts (fun s => s ++ "-uuid5") (fun _ _ => Except.ok [1])
        (fun _ => none) [{ id := "65a1", name := "Milk" }] (initJobState
          (runProducts (fun s => s ++ "-uuid5") (fun _ _ => Except.ok [1])
            (fun _ => none) [{ id := "65a1", name := "Milk" }]
            (initJobState [])).index)).index
      = pointIds (runProducts (fun s => s ++ "-uuid5") (fun _ _ => Except.ok [1])
          (fun _ => none) [{ id := "65a1", name := "Milk" }]
          (initJobState [])).index :=
  ⟨C2_point_id_pure_and_rerun_idempotent.1 (fun s => s ++ "-uuid5")
     "65a1" "65a1" rfl,
   C2_point_id_pure_and_rerun_idempotent.2.1 (fun s => s ++ "-uuid5")
     (fun _ _ => Except.ok [1]) (fun _ => none)
     [{ id := "65a1", name := "Milk" }] []⟩

/-- C4: every embedding generated on the query path
(`VectorSearchService.search_products` / `search_branches`) uses task type
`"RETRIEVAL_QUERY"`, every embedding generated by the bulk vectorization
loops uses the settings default `"RETRIEVAL_DOCUMENT"` (the job calls
`generate_embedding` without a task type), and these two task types are
distinct, so the two paths never use the same task type. -/
theorem C4_query_vs_document_task_types :
    (∀ (api : EmbedApi) (qd : QdrantSearchApi) (q : String) (l : Nat)
        (st : Option Rat),
        ((embedTaskTypes (search_products api qd q l st).2).all
          (fun tt => tt == "RETRIEVAL_QUERY")) = true) ∧
    (∀ (api : EmbedApi) (qd : QdrantSearchApi) (q : String) (l : Nat)
        (st : Option Rat),
        ((embedTaskTypes (search_branches api qd q l st).2).all
          (fun tt => tt == "RETRIEVAL_QUERY")) = true) ∧
    (∀ (u : String → String) (api : EmbedApi) (up : UpsertApi)
        (records : List Product) (ix : QIndex),
        ((embedTaskTypes (runProducts u api up records (initJobState ix)).trace).all
          (fun tt => tt == "RETRIEVAL_DOCUMENT")) = true) ∧
    (∀ (u : String → String) (api : EmbedApi) (up : UpsertApi)
        (records : List Branch) (ix : QIndex),
        ((embedTaskTypes (runBranches u api up records (initJobState ix)).trace).all
          (fun tt => tt == "RETRIEVAL_DOCUMENT")) = true) ∧
    (("RETRIEVAL_QUERY" : String) == "RETRIEVAL_DOCUMENT") = false := by
  refine ⟨?_, ?_, ?_, ?_, by decide⟩
  · intro api qd q l st
    rcases h : api q "RETRIEVAL_QUERY" with e | emb
    · simp [search_products, resolveTaskType_query, h, embedTaskTypes]
    · rcases h2 : qd (productSearchParams emb l st) with e2 | res <;>
        simp [search_products, resolveTaskType_query, h, h2, embedTaskTypes]
  · intro api qd q l st
    rcases h : api q "RETRIEVAL_QUERY" with e | emb
    · simp [search_branches, resolveTaskType_query, h, embedTaskTypes]
    · rcases h2 : qd (branchSearchParams emb l st) with e2 | res <;>
        simp [search_branches, resolveTaskType_query, h, h2, embedTaskTypes]
  · intro u api up records ix
    exact foldl_embedTaskTypes_all _ _
      (fun st a h => productStep_taskTypes u api up st a h)
      records (initJobState ix) (by simp [initJobState, embedTaskTypes])
  · intro u api up records ix
    exact foldl_embedTaskTypes_all _ _
      (fun st a h => branchStep_taskTypes u api up st a h)
      records (initJobState ix) (by simp [initJobState, embedTaskTypes])

/-- C5: a record whose derived text is blank (product: the name; branch:
name and address joined by a single space) is recorded under `skipped` —
with everything else in the loop state untouched, so nothing is added to
`errors` and `vectorized_count` does not move — and the loop carries on
with the remaining records. -/
theorem C5_blank_derived_text_skipped_not_error :
    (∀ (u : String → String) (api : EmbedApi) (up : UpsertApi)
        (st : JobState) (p : Product) (rest : List Product),
        isBlank p.name = true →
        runProducts u api up (p :: rest) st
          = runProducts u api up rest
              { st with skipped := st.skipped ++
                  [{ record_id := p.id,
                     reason := "Empty or missing product name" }] }) ∧
    (∀ (u : String → String) (api : EmbedApi) (up : UpsertApi)
        (st : JobState) (b : Branch) (rest : List Branch),
        isBlank (b.name ++ " " ++ b.address) = true →
        runBranches u api up (b :: rest) st
          = runBranches u api up rest
              { st with skipped := st.skipped ++
                  [{ record_id := b.id,
                     reason := "Empty or missing branch name" }] }) := by
  constructor
  · intro u api up st p rest hb
    simp [runProducts, List.foldl_cons, productStep, hb]
  · intro u api up st b rest hb
    have hn : isBlank b.name = true := by
      rw [isBlank_append, Bool.and_eq_true] at hb
      have hb1 := hb.1
      rw [isBlank_append, Bool.and_eq_true] at hb1
      exact hb1.1
    simp [runBranches, List.foldl_cons, branchStep, hn]

/-- Witness for C5 at concrete blank records: a product whose name is a
single space, a branch whose name and address are whitespace. -/
theorem C5_witness :
    (runProducts (fun s => s) (fun _ _ => Except.ok [1]) (fun _ => none)
        [{ id := "p1", name := " " }] (initJobState [])
      = runProducts (fun s => s) (fun _ _ => Except.ok [1]) (fun _ => none) []
          { initJobState [] with skipped :=
              [{ record_id := "p1",
                 reason := "Empty or missing product name" }] }) ∧
    (runBranches (fun s => s) (fun _ _ => Except.ok [1]) (fun _ => none)
        [{ id := "b1", name := " ", address := "" }] (initJobState [])
      = runBranches (fun s => s) (fun _ _ => Except.ok [1]) (fun _ => none) []
          { initJobState [] with skipped :=
              [{ record_id := "b1",
                 reason := "Empty or missing branch name" }] }) :=
  ⟨C5_blank_derived_text_skipped_not_error.1 (fun s => s)
     (fun _ _ => Except.ok [1]) (fun _ => none) (initJobState [])
     { id := "p1", name := " " } [] (by decide),
   C5_blank_derived_text_skipped_not_error.2 (fun s => s)
     (fun _ _ => Except.ok [1]) (fun _ => none) (initJobState [])
     { id := "b1", name := " ", address := "" } [] (by decide)⟩

/-- C6: for a non-empty record set (the only case that reaches the report;
an empty set takes the no_data early return), the report's status is
exactly `"failed"` iff the vectorized count is zero, exactly
`"partial_success"` iff the count is positive and at least one error or
skipped item was recorded, and exactly `"success"` iff there are no errors
and no skipped items — for products and branches alike. -/
theorem C6_report_status_trichotomy :
    (∀ (u : String → String) (api : EmbedApi) (up : UpsertApi) (ix : QIndex)
        (records : List Product) (created : Bool) (final : JobState),
        records ≠ [] →
        final = runProducts u api up records (initJobState ix) →
        (((buildReport "products" created records.length final).status = "failed"
            ↔ final.count = 0) ∧
         ((buildReport "products" created records.length final).status = "partial_success"
            ↔ final.count ≠ 0 ∧ (final.errors ≠ [] ∨ final.skipped ≠ [])) ∧
         ((buildReport "products" created records.length final).status = "success"
            ↔ final.errors = [] ∧ final.skipped = []))) ∧
    (∀ (u : String → String) (api : EmbedApi) (up : UpsertApi) (ix : QIndex)
        (records : List Branch) (created : Bool) (final : JobState),
        records ≠ [] →
        final = runBranches u api up records (initJobState ix) →
        (((buildReport "branches" created records.length final).status = "failed"
            ↔ final.count = 0) ∧
         ((buildReport "branches" created records.length final).status = "partial_success"
            ↔ final.count ≠ 0 ∧ (final.errors ≠ [] ∨ final.skipped ≠ [])) ∧
         ((buildReport "branches" created records.length final).status = "success"
            ↔ final.errors = [] ∧ final.skipped = []))) := by
  constructor
  · intro u api up ix records created final hne hfin
    obtain ⟨h1, h2, h3⟩ := jobStatus_spec final.count final.errors final.skipped
    refine ⟨h1, h2, ?_⟩
    constructor
    · intro h
      exact ⟨(h3.1 h).2.1, (h3.1 h).2.2⟩
    · rintro ⟨he, hs⟩
      apply h3.2
      refine ⟨?_, he, hs⟩
      have hsum := runProducts_jobSum u api up records (initJobState ix)
      rw [← hfin] at hsum
      simp [jobSum, initJobState, he, hs] at hsum
      intro hc
      rw [hc] at hsum
      exact hne (List.length_eq_zero.1 hsum.symm)
  · intro u api up ix records created final hne hfin
    obtain ⟨h1, h2, h3⟩ := jobStatus_spec final.count final.errors final.skipped
    refine ⟨h1, h2, ?_⟩
    constructor
    · intro h
      exact ⟨(h3.1 h).2.1, (h3.1 h).2.2⟩
    · rintro ⟨he, hs⟩
      apply h3.2
      refine ⟨?_, he, hs⟩
      have hsum := runBranches_jobSum u api up records (initJobState ix)
      rw [← hfin] at hsum
      simp [jobSum, initJobState, he, hs] at hsum
      intro hc
      rw [hc] at hsum
      exact hne (List.length_eq_zero.1 hsum.symm)

/-- Witness for C6: a one-product job in which the single record vectorizes
cleanly reports status success. -/
theorem C6_witness :
    (buildReport "products" false 1
      (runProducts (fun s => s) (fun _ _ => Except.ok [1]) (fun _ => none)
        [{ id := "p1", name := "Milk" }] (initJobState []))).status
      = "success" :=
  ((C6_report_status_trichotomy.1 (fun s => s) (fun _ _ => Except.ok [1])
      (fun _ => none) [] [{ id := "p1", name := "Milk" }] false
      (runProducts (fun s => s) (fun _ _ => Except.ok [1]) (fun _ => none)
        [{ id := "p1", name := "Milk" }] (initJobState []))
      (by decide) rfl).2.2).2 ⟨by decide, by decide⟩

/-- C8: `create_collection` on a name that already exists returns `True`
and leaves the collections untouched (conjunct 1); and whenever a call
returns success, an immediately repeated call with identical parameters is
a no-op that also returns success (conjunct 2). -/
theorem C8_create_collection_idempotent :
    (∀ (backendOk : Bool) (st : CollectionsState) (n : String) (v : Nat)
        (d : Distance), n ∈ collectionNames st →
        create_collection backendOk st n v d = (true, st)) ∧
    (∀ (backendOk : Bool) (st : CollectionsState) (n : String) (v : Nat)
        (d : Distance),
        (create_collection backendOk st n v d).1 = true →
        create_collection backendOk (create_collection backendOk st n v d).2 n v d
          = (true, (create_collection backendOk st n v d).2)) := by
  constructor
  · intro bk st n v d h
    simp [create_collection, h]
  · intro bk st n v d h1
    by_cases hm : n ∈ collectionNames st
    · simp [create_collection, hm]
    · cases bk with
      | false => simp [create_collection, hm] at h1
      | true =>
        have hmem : n ∈ collectionNames
            ⟨st.collections ++ [(n, v, d)]⟩ := by
          simp [collectionNames]
        simp [create_collection, hm, hmem]

/-- Witness for C8: with the `"products"` collection already present, the
call returns success without modification; and starting from an empty
server, a first successful creation followed by an identical call is a
no-op returning success. -/
theorem C8_witness :
    create_collection true ⟨[("products", 768, Distance.cosine)]⟩
        "products" 768 Distance.cosine
      = (true, ⟨[("products", 768, Distance.cosine)]⟩) ∧
    create_collection true
        (create_collection true ⟨[]⟩ "branches" 768 Distance.cosine).2
        "branches" 768 Distance.cosine
      = (true, (create_collection true ⟨[]⟩ "branches" 768 Distance.cosine).2) :=
  ⟨C8_create_collection_idempotent.1 true ⟨[("products", 768, Distance.cosine)]⟩
     "products" 768 Distance.cosine (by decide),
   C8_create_collection_idempotent.2 true ⟨[]⟩ "branches" 768 Distance.cosine
     (by decide)⟩

/-- C9: when more than 10 errors (resp. skipped items) are collected, the
report shows exactly the first 10 of them together with a truncation
notice, while the summary counts still carry the full totals. -/
theorem C9_report_truncates_to_ten :
    ∀ (c : String) (created : Bool) (total : Nat) (st : JobState),
      (st.errors.length > 10 →
        (buildReport c created total st).errors_shown = st.errors.take 10 ∧
        (buildReport c created total st).errors_shown.length = 10 ∧
        (buildReport c created total st).errors_truncated
          = some ("Showing 10 of " ++ toString st.errors.length ++ " errors") ∧
        (buildReport c created total st).summary_errors = st.errors.length) ∧
      (st.skipped.length > 10 →
        (buildReport c created total st).skipped_shown = st.skipped.take 10 ∧
        (buildReport c created total st).skipped_shown.length = 10 ∧
        (buildReport c created total st).skipped_truncated
          = some ("Showing 10 of " ++ toString st.skipped.length ++ " skipped items") ∧
        (buildReport c created total st).summary_skipped = st.skipped.length) := by
  intro c created total st
  constructor
  · intro h
    refine ⟨rfl, ?_, ?_, rfl⟩
    · simp [buildReport, List.length_take]
      omega
    · simp [buildReport, h]
  · intro h
    refine ⟨rfl, ?_, ?_, rfl⟩
    · simp [buildReport, List.length_take]
      omega
    · simp [buildReport, h]

/-- Witness for C9 at a report with 11 errors and 12 skipped entries. -/
theorem C9_witness :
    (buildReport "products" false 23
        { index := [], count := 0,
          errors := List.replicate 11
            { record_id := "e", record_name := "E",
              stage := "embedding_generation", error := "boom" },
          skipped := List.replicate 12
            { record_id := "s", reason := "Empty or missing product name" },
          trace := [] }).errors_shown.length = 10 ∧
    (buildReport "products" false 23
        { index := [], count := 0,
          errors := List.replicate 11
            { record_id := "e", record_name := "E",
              stage := "embedding_generation", error := "boom" },
          skipped := List.replicate 12
            { record_id := "s", reason := "Empty or missing product name" },
          trace := [] }).skipped_truncated
      = some "Showing 10 of 12 skipped items" :=
  ⟨((C9_report_truncates_to_ten "products" false 23
      { index := [], count := 0,
        errors := List.replicate 11
          { record_id := "e", record_name := "E",
            stage := "embedding_generation", error := "boom" },
        skipped := List.replicate 12
          { record_id := "s", reason := "Empty or missing product name" },
        trace := [] }).1 (by decide)).2.1,
   (((C9_report_truncates_to_ten "products" false 23
      { index := [], count := 0,
        errors := List.replicate 11
          { record_id := "e", record_name := "E",
            stage := "embedding_generation", error := "boom" },
        skipped := List.replicate 12
          { record_id := "s", reason := "Empty or missing product name" },
        trace := [] }).2 (by decide)).2.2).1⟩

/-- C10: with the Qdrant client available and no records of the requested
type, each vectorization endpoint returns the `no_data` report — status
`"no_data"` (a fourth status), total 0, vectorized 0 — and its trace shows
it talked to the client and fetched the records but never initialized the
embedding service, never created a collection, never embedded, and never
upserted. -/
theorem C10_no_data_early_return :
    (∀ (embedInitOk : Bool) (u : String → String) (api : EmbedApi)
        (up : UpsertApi) (ce co : Bool) (ix : QIndex),
        vectorize_all_products true embedInitOk u api up ce co [] ix
          = (.ok (noDataResponse "products"),
             [.getClient, .fetchRecords "products"])) ∧
    (∀ (embedInitOk : Bool) (u : String → String) (api : EmbedApi)
        (up : UpsertApi) (ce co : Bool) (ix : QIndex),
        vectorize_all_branches true embedInitOk u api up ce co [] ix
          = (.ok (noDataResponse "branches"),
             [.getClient, .fetchRecords "branches"])) ∧
    (noDataResponse "products").status = "no_data" ∧
    (noDataResponse "products").summary_total = 0 ∧
    (noDataResponse "products").summary_vectorized = 0 ∧
    (noDataResponse "branches").status = "no_data" ∧
    (noDataResponse "branches").summary_total = 0 ∧
    (noDataResponse "branches").summary_vectorized = 0 ∧
    (([Action.getClient, Action.fetchRecords "products"].all
        (fun a => !(isSetupOrWriteAction a))) = true) ∧
    (([Action.getClient, Action.fetchRecords "branches"].all
        (fun a => !(isSetupOrWriteAction a))) = true) :=
  ⟨fun _ _ _ _ _ _ _ => rfl, fun _ _ _ _ _ _ _ => rfl,
   rfl, rfl, rfl, rfl, rfl, rfl, by decide, by decide⟩

end Llego
